import Mathlib

/-!
Verification development for the rate-synchronization core of the exivity
support CLI (exivity_cli/modules/rate_management.py and
exivity_cli/api/client.py).

The Python source is shallowly embedded: pure fragments become Lean
functions, the mutable API-client cache becomes explicit state passing,
network calls become oracle parameters, and fallible operations return
Option or Except.  Numeric rate values are never inspected by any property
proved here, so the float fields rate and cogs are carried opaquely as
their (parse-validated) source strings.
-/

/-! ## String helpers mirroring the Python builtins used by the source -/

/-- Python str.strip on the default whitespace set: drop leading and
trailing whitespace characters.  (Python also strips \x0b, \x0c and
unicode spaces; no input in this development uses those.) -/
def pyStrip (s : String) : String :=
  String.mk (((s.data.dropWhile Char.isWhitespace).reverse.dropWhile Char.isWhitespace).reverse)

/-- Interpret a list of characters as a base-10 natural number, the way
int() does after sign handling: at least one character, all digits. -/
def digitsToNat (cs : List Char) : Option Nat :=
  if cs ≠ [] ∧ cs.all Char.isDigit then
    some (cs.foldl (fun a c => a * 10 + (c.toNat - 48)) 0)
  else none

/-- Python int(s) on a string: optional surrounding whitespace, optional
sign, then decimal digits; anything else raises ValueError (here: none).
(Underscore digit grouping and non-ASCII digits are not modelled; the CSV
inputs of this tool do not use them.) -/
def parsePyInt (s : String) : Option Int :=
  match (pyStrip s).data with
  | [] => none
  | c :: cs =>
    if c = '-' then (digitsToNat cs).map (fun n => -(n : Int))
    else if c = '+' then (digitsToNat cs).map (fun n => (n : Int))
    else (digitsToNat (c :: cs)).map (fun n => (n : Int))

def isDigitList (cs : List Char) : Bool :=
  !cs.isEmpty && cs.all Char.isDigit

/-- Drop one optional leading sign character. -/
def dropSign (cs : List Char) : List Char :=
  match cs with
  | [] => []
  | c :: rest => if c = '-' ∨ c = '+' then rest else c :: rest

/-- Mantissa of a Python float literal: digits, digits dot, digits dot
digits, or dot digits. -/
def floatCoreOk (cs : List Char) : Bool :=
  match cs.splitOn '.' with
  | [a] => isDigitList a
  | [a, b] => (isDigitList a && (b.isEmpty || isDigitList b)) || (a.isEmpty && isDigitList b)
  | _ => false

/-- Python float(s) succeeds: optional whitespace and sign, decimal
mantissa, optional exponent.  (The special forms inf and nan and
underscore grouping are not modelled; only success or failure of the
conversion matters to the properties proved below, never the value.) -/
def isPyFloatLit (s : String) : Bool :=
  let cs := dropSign (pyStrip s).data
  match (cs.map Char.toLower).splitOn 'e' with
  | [m] => floatCoreOk m
  | [m, ex] => floatCoreOk m && isDigitList (dropSign ex)
  | _ => false

/-- Date canonicalization used identically in rate_management.py and
client.py: an 8-digit string YYYYMMDD becomes YYYY-MM-DD, anything else is
passed through unchanged. -/
def formatDate (d : String) : String :=
  let cs := d.data
  if cs.length = 8 ∧ cs.all Char.isDigit then
    String.mk (cs.take 4) ++ "-" ++ String.mk ((cs.drop 4).take 2) ++ "-" ++ String.mk (cs.drop 6)
  else d

def startsWithChars : List Char → List Char → Bool
  | [], _ => true
  | _ :: _, [] => false
  | a :: as, b :: bs => a = b && startsWithChars as bs

/-- Substring occurrence test on character lists (used to check what a
fixed diagnostic message does and does not mention). -/
def hasSubChars (needle : List Char) : List Char → Bool
  | [] => startsWithChars needle []
  | c :: rest => startsWithChars needle (c :: rest) || hasSubChars needle rest

/-! ## Dump snapshot model

fetch_dump_data parses the bulk dump into a dict mapping model names to
lists of flat records (dicts of string fields).  The code reads the
models by the fixed keys rate, ratetier, account and service via
dump_data.get(name, []), so the snapshot is embedded as a structure with
one list per consulted model; a record is an association list of string
fields, looked up with dict.get(key, default). -/

abbrev DumpRecord := List (String × String)

/-- Python record.get(key, default empty string): value of the first
field with the given name, or the empty string. -/
def getField (r : DumpRecord) (k : String) : String :=
  ((r.find? (fun p => p.1 == k)).map (fun p => p.2)).getD ""

structure DumpData where
  rate : List DumpRecord
  ratetier : List DumpRecord
  account : List DumpRecord
  service : List DumpRecord
deriving DecidableEq

def emptyDump : DumpData := ⟨[], [], [], []⟩

/-- RateManager._get_services_with_rate_tiers: service ids taken from
ratetier records (when non-empty) plus service ids of rate records whose
tier_aggregation_level is non-empty.  The Python set is modelled as a
list; only membership is ever used. -/
def servicesWithRateTiers (d : DumpData) : List String :=
  (d.ratetier.filterMap (fun t =>
    let sid := getField t "service_id"
    if sid ≠ "" then some sid else none))
  ++ (d.rate.filterMap (fun r =>
    let tierLevel := getField r "tier_aggregation_level"
    let sid := getField r "service_id"
    if tierLevel ≠ "" ∧ sid ≠ "" then some sid else none))

abbrev RateKey := String × String × String

/-- The existing_rates_lookup set built in _update_rates_from_csv_original
(and identically in validate_csv_against_system): one
(account_id, service_id, effective_date) triple per dump rate record. -/
def existingRatesLookup (d : DumpData) : List RateKey :=
  d.rate.map (fun r => (getField r "account_id", getField r "service_id", getField r "effective_date"))

/-! ## CSV row model and the import classification pass

A raw csv.DictReader row maps column names to values; a value can be
missing (None) for a short data line, and calling strip() on None raises,
which the per-row except handler turns into an error row. -/

abbrev CsvRow := List (String × Option String)

/-- The cleaned_row comprehension: strip every key and value; if any value
is None the comprehension raises (modelled as none). -/
def cleanRow (row : CsvRow) : Option (List (String × String)) :=
  row.mapM (fun p =>
    match p.2 with
    | some v => some (pyStrip p.1, pyStrip v)
    | none => none)

/-- Python dict lookup cleaned_row[key]: first matching field, or a
KeyError (none). -/
def getVal (cr : List (String × String)) (k : String) : Option String :=
  (cr.find? (fun p => p.1 == k)).map (fun p => p.2)

structure ParsedRow where
  acc : Int
  svc : Int
  rateStr : String
  cogsStr : String
  effDate : String
deriving DecidableEq

/-- The try-block head of the per-row loop in
_update_rates_from_csv_original: clean the row, read the five required
fields, parse account_id and service_id as ints and rate and cogs as
floats.  Any exception (missing key, None value, failed conversion) makes
the row an error row, modelled as none. -/
def parseRow (row : CsvRow) : Option ParsedRow :=
  match cleanRow row with
  | none => none
  | some cr =>
    match getVal cr "account_id" with
    | none => none
    | some a =>
      match parsePyInt a with
      | none => none
      | some acc =>
        match getVal cr "service_id" with
        | none => none
        | some s =>
          match parsePyInt s with
          | none => none
          | some svc =>
            match getVal cr "rate" with
            | none => none
            | some rt =>
              if isPyFloatLit rt then
                match getVal cr "cogs" with
                | none => none
                | some cg =>
                  if isPyFloatLit cg then
                    match getVal cr "revision_start_date" with
                    | none => none
                    | some dt => some ⟨acc, svc, rt, cg, dt⟩
                  else none
              else none

/-- An entry of the new_rates list: the parsed fields plus the source row
number; effective_date is stored raw, exactly as the source does. -/
structure NewRate where
  account : Int
  service : Int
  rateStr : String
  cogsStr : String
  effectiveDate : String
  rowNum : Nat
deriving DecidableEq

/-- The (account, service, formatted date) triple under which a created
rate is checked against the lookup set. -/
def newRateKey (nr : NewRate) : RateKey :=
  (toString nr.account, toString nr.service, formatDate nr.effectiveDate)

inductive ImportOutcome
  | created (nr : NewRate)
  | dupSkip
  | tierSkip
  | rowError
deriving DecidableEq

/-- One iteration of the classification loop of
_update_rates_from_csv_original: parse the five fields (failure: error
row), then the rate-tier check, then date canonicalization and the
duplicate-key check, else the row joins new_rates. -/
def rowOutcome (tiers : List String) (lookup : List RateKey) (rowNum : Nat) (row : CsvRow) :
    ImportOutcome :=
  match parseRow row with
  | none => .rowError
  | some p =>
    if toString p.svc ∈ tiers then .tierSkip
    else if (toString p.acc, toString p.svc, formatDate p.effDate) ∈ lookup then .dupSkip
    else .created ⟨p.acc, p.svc, p.rateStr, p.cogsStr, p.effDate, rowNum⟩

/-- The counters accumulated by the classification loop. -/
structure ImportCounts where
  newRates : List NewRate
  skippedCount : Nat
  skippedTiers : Nat
  errorRows : Nat
  processedRows : Nat
deriving DecidableEq

/-- The classification loop, starting at a given row number (the source
starts at 2, row 1 being the header). -/
def passAux (tiers : List String) (lookup : List RateKey) : Nat → List CsvRow → ImportCounts
  | _, [] => ⟨[], 0, 0, 0, 0⟩
  | n, row :: rest =>
    let tail := passAux tiers lookup (n + 1) rest
    match rowOutcome tiers lookup n row with
    | .created nr => ⟨nr :: tail.newRates, tail.skippedCount, tail.skippedTiers, tail.errorRows, tail.processedRows + 1⟩
    | .dupSkip => ⟨tail.newRates, tail.skippedCount + 1, tail.skippedTiers, tail.errorRows, tail.processedRows + 1⟩
    | .tierSkip => ⟨tail.newRates, tail.skippedCount, tail.skippedTiers + 1, tail.errorRows, tail.processedRows + 1⟩
    | .rowError => ⟨tail.newRates, tail.skippedCount, tail.skippedTiers, tail.errorRows + 1, tail.processedRows + 1⟩

/-- The whole classification pass of _update_rates_from_csv_original over
the data rows of a CSV, against a dump snapshot. -/
def runClassification (d : DumpData) (rows : List CsvRow) : ImportCounts :=
  passAux (servicesWithRateTiers d) (existingRatesLookup d) 2 rows

/-! ## Dump records produced by a successful creation run (claim C1) -/

/-- The dump rate record that exists upstream after a new_rates entry has
been created: the API write (create_rate_revisions_batch) submits the
canonicalized effective date, a null tier_aggregation_level, and the
account and service ids as strings. -/
def createdDumpRecord (nr : NewRate) : DumpRecord :=
  [("account_id", toString nr.account),
   ("service_id", toString nr.service),
   ("effective_date", formatDate nr.effectiveDate),
   ("rate", nr.rateStr),
   ("cogs_rate", nr.cogsStr),
   ("tier_aggregation_level", "")]

/-- A dump snapshot refreshed after the created rates exist upstream. -/
def updatedDump (d : DumpData) (created : List NewRate) : DumpData :=
  { d with rate := d.rate ++ created.map createdDumpRecord }

/-! ## Encoding selection of the CSV ingestor (claims C5 and C6)

The selection loop of _update_rates_from_csv_original opens the file under
each candidate encoding in turn; it reads the first line and the
csv.DictReader fieldnames, cleans the fieldnames and checks the required
columns.  CPython decodes text files eagerly by buffered chunks, so this
header-reading step decodes the first chunk of the file (about 8 KB) and
raises UnicodeDecodeError for an invalid byte anywhere within that chunk,
while bytes beyond the first chunk are never examined during selection.
A file is modelled by what each encoding yields for the header-reading
step (none when that step raises: a bad byte in the first chunk, or no
fieldnames), whether the whole file would decode under that encoding (the
condition the spec states, consulted by the source only up to the first
chunk), and the data rows obtained when the file is processed under an
encoding. -/

inductive Encoding
  | utf8
  | utf8sig
  | cp1252
  | iso8859_1
deriving DecidableEq

/-- The fixed candidate list encodings_to_try, in source order. -/
def encodingsToTry : List Encoding := [.utf8, .utf8sig, .cp1252, .iso8859_1]

structure FileProfile where
  header : Encoding → Option (List String)
  wholeFileDecodes : Encoding → Bool
  rows : Encoding → List CsvRow

def requiredCols : List String :=
  ["account_id", "service_id", "rate", "cogs", "revision_start_date"]

/-- The cleaned_fieldnames comprehension: strip each field name and delete
every byte-order-mark character (replace of the one-character BOM pattern
by the empty string, written here as a character filter). -/
def cleanFieldnames (fs : List String) : List String :=
  fs.map (fun f => String.mk ((pyStrip f).data.filter (fun c => c ≠ '\uFEFF')))

/-- One iteration of the selection loop: the header-reading step succeeds
(in particular the first buffered chunk decodes) and, after cleaning, the
set difference required_cols - fieldnames is empty. -/
def headerOk (f : FileProfile) (e : Encoding) : Bool :=
  match f.header e with
  | none => false
  | some fs => requiredCols.all (fun c => c ∈ cleanFieldnames fs)

/-- The selection loop: first candidate encoding whose header-reading
step succeeds and yields the required columns (the break in the source). -/
def selectEncoding (f : FileProfile) : Option Encoding :=
  encodingsToTry.find? (fun e => headerOk f e)

/-- Stated by the spec, for comparison with selectEncoding: the spec
requires that decoding succeed for the whole file, not only for the first
buffered chunk read by the header step. -/
def selectEncodingSpecStated (f : FileProfile) : Option Encoding :=
  encodingsToTry.find? (fun e => headerOk f e && f.wholeFileDecodes e)

/-- The message printed by the for-else branch when no encoding is
selected; the function then returns without processing any row. -/
def ingestFailureMessage : String :=
  "Failed to parse CSV with any encoding. Please check the file format."

/-- Ingestion followed by classification: when no encoding is selected the
run fails as a whole with the fixed message and no row is processed;
otherwise the rows read under the selected encoding are classified. -/
def ingestRows (f : FileProfile) (d : DumpData) : Except String ImportCounts :=
  match selectEncoding f with
  | none => .error ingestFailureMessage
  | some e => .ok (runClassification d (f.rows e))

/-! ## API client dump cache (claim C2)

The client object carries a lazily created attribute _cached_dump_data,
deleted by clear_dump_cache.  State is made explicit: the cache slot plus
a counter of network fetches performed; the snapshot returned by the k-th
network fetch is an oracle (the internals of one fetch, including its
endpoint fallback chain, are modelled separately for claim C8). -/

structure ClientState where
  cachedDumpData : Option DumpData
  requestCount : Nat
deriving DecidableEq

def initialClientState : ClientState := ⟨none, 0⟩

/-- fetch_dump_data as a state transformer: every call performs a network
fetch (there is no cache consultation in its body). -/
def fetchDumpDataStateful (net : Nat → DumpData) (s : ClientState) : DumpData × ClientState :=
  (net s.requestCount, { s with requestCount := s.requestCount + 1 })

/-- The membership scan of rate_revision_exists over the rate records of a
snapshot. -/
def rateExistsIn (d : DumpData) (accountId serviceId : Int) (formattedDate : String) : Bool :=
  d.rate.any (fun r =>
    getField r "account_id" == toString accountId &&
    getField r "service_id" == toString serviceId &&
    getField r "effective_date" == formattedDate)

/-- rate_revision_exists: canonicalize the date, use _cached_dump_data if
the attribute is set, otherwise fetch the dump and set the attribute, then
scan the rate records. -/
def rateRevisionExists (net : Nat → DumpData) (accountId serviceId : Int)
    (effectiveDate : String) (s : ClientState) : Bool × ClientState :=
  let formatted := formatDate effectiveDate
  match s.cachedDumpData with
  | some dump => (rateExistsIn dump accountId serviceId formatted, s)
  | none =>
    let fetched := fetchDumpDataStateful net s
    (rateExistsIn fetched.1 accountId serviceId formatted,
     { fetched.2 with cachedDumpData := some fetched.1 })

/-- clear_dump_cache: delete the attribute when present. -/
def clearDumpCache (s : ClientState) : ClientState :=
  { s with cachedDumpData := none }

/-! ## fetch_dump_data endpoint fallback (claim C8) -/

structure DumpRequest where
  endpoint : String
  params : List (String × String)
  accept : String
deriving DecidableEq

/-- The primary dump request issued by fetch_dump_data. -/
def primaryDumpRequest : DumpRequest :=
  ⟨"/v1/dump/data",
   [("models", "account,adjustment,adjustables,metadata,rate,reportdefinition,service,servicecategory"),
    ("progress", "0")],
   "text/csv"⟩

/-- The alternatives list tried in order after a primary failure.  The
first three hit the same /v1/dump/data endpoint with narrower model
lists; the fourth hits the different endpoint /v2/dump. -/
def dumpAlternatives : List DumpRequest :=
  [⟨"/v1/dump/data", [("models", "account,rate,service"), ("progress", "0")], "text/csv"⟩,
   ⟨"/v1/dump/data", [("models", "account,service,rate")], "text/csv"⟩,
   ⟨"/v1/dump/data", [("models", "account"), ("progress", "0")], "text/csv"⟩,
   ⟨"/v2/dump", [("data", "account,service,rate"), ("progress", "0")], "text/csv"⟩]

/-- fetch_dump_data over a network oracle (request to response text, or a
raised exception) and the dump-text parser (taken as a parameter; its
sentinel-line format is not consulted by any claim): try the primary
request, then each alternative in order, and return the empty dict when
every attempt fails. -/
def fetchDumpData (net : DumpRequest → Except Unit String) (parse : String → DumpData) : DumpData :=
  match net primaryDumpRequest with
  | .ok text => parse text
  | .error _ =>
    match dumpAlternatives.findSome? (fun alt =>
      match net alt with
      | .ok text => some (parse text)
      | .error _ => none) with
    | some d => d
    | none => emptyDump

/-! ## Batch submission controller (claim C4)

The batch loop slices new_rates into batches of at most 50, submits each
batch through create_rate_revisions_batch, counts the atomic:results
entries containing a data payload, and on a batch-level exception falls
back to one create_rate_revision call per row of that batch.  Outcomes
are oracles: a batch either raises or returns the data-presence flags of
its result entries; an individual creation either succeeds or raises.
The controller also emits a trace of the API calls it makes. -/

inductive SubmitCall
  | batchCall (b : List NewRate)
  | indivCall (r : NewRate)
deriving DecidableEq

structure SubmitEnv where
  batchResult : List NewRate → Except Unit (List Bool)
  indivOk : NewRate → Bool

/-- The slicing new_rates[i:i+50] for i in range(0, len, 50). -/
def chunked50 (l : List NewRate) : List (List NewRate) :=
  if h : l = [] then []
  else l.take 50 :: chunked50 (l.drop 50)
termination_by l.length
decreasing_by
  have hl : 0 < l.length := List.length_pos.mpr h
  simp only [List.length_drop]
  omega

/-- The batch loop over a list of batches: created count plus the trace of
calls.  A successful batch counts its data-bearing results; a failing
batch is retried row by row, counting individual successes, and the loop
continues with the next batch either way. -/
def submitBatchesAux (env : SubmitEnv) : List (List NewRate) → Nat × List SubmitCall
  | [] => (0, [])
  | b :: rest =>
    let tail := submitBatchesAux env rest
    match env.batchResult b with
    | .ok results => ((results.filter id).length + tail.1, .batchCall b :: tail.2)
    | .error _ =>
      ((b.filter env.indivOk).length + tail.1,
       .batchCall b :: (b.map SubmitCall.indivCall ++ tail.2))

/-- The whole submission phase of _update_rates_from_csv_original. -/
def submitBatches (env : SubmitEnv) (newRates : List NewRate) : Nat × List SubmitCall :=
  submitBatchesAux env (chunked50 newRates)

/-! ## validate_csv_against_system (claim C3)

The validation loop of client.py classifies each already-read CSV row
against account ids, service ids and the existing-rates set from the dump.
Every branch of the loop except the duplicate branch ends in continue; the
duplicate branch falls through, so the row is appended to duplicate_rates
and then also to valid_rows. -/

structure ValidationResults where
  validRows : List Nat
  invalidAccounts : List (Nat × String)
  invalidServices : List (Nat × String)
  missingFields : List (Nat × List String)
  duplicateRates : List (Nat × String × String × String)
deriving DecidableEq

/-- Python row.get(key, default empty string) on an already-cleaned row. -/
def getValD (row : List (String × String)) (k : String) : String :=
  ((row.find? (fun p => p.1 == k)).map (fun p => p.2)).getD ""

/-- The list comprehension naming the empty required fields, in source
order. -/
def missingOf (a s e : String) : List String :=
  (if a = "" then ["account_id"] else [])
  ++ (if s = "" then ["service_id"] else [])
  ++ (if e = "" then ["revision_start_date"] else [])

/-- The validation loop, indexed from 0 (row_num = i + 2). -/
def validateAux (accIds svcIds : List String) (rates : List RateKey) :
    Nat → List (List (String × String)) → ValidationResults
  | _, [] => ⟨[], [], [], [], []⟩
  | i, row :: rest =>
    let tail := validateAux accIds svcIds rates (i + 1) rest
    let rowNum := i + 2
    let accountId := pyStrip (getValD row "account_id")
    let serviceId := pyStrip (getValD row "service_id")
    let effectiveDate := pyStrip (getValD row "revision_start_date")
    if accountId = "" ∨ serviceId = "" ∨ effectiveDate = "" then
      { tail with missingFields := (rowNum, missingOf accountId serviceId effectiveDate) :: tail.missingFields }
    else if accountId ∉ accIds then
      { tail with invalidAccounts := (rowNum, accountId) :: tail.invalidAccounts }
    else if serviceId ∉ svcIds then
      { tail with invalidServices := (rowNum, serviceId) :: tail.invalidServices }
    else
      let formatted := formatDate effectiveDate
      if (accountId, serviceId, formatted) ∈ rates then
        { tail with
          duplicateRates := (rowNum, accountId, serviceId, effectiveDate) :: tail.duplicateRates,
          validRows := rowNum :: tail.validRows }
      else
        { tail with validRows := rowNum :: tail.validRows }

/-- validate_csv_against_system: build the lookups from the dump and run
the loop. -/
def validateCsvAgainstSystem (d : DumpData) (csvData : List (List (String × String))) :
    ValidationResults :=
  validateAux (d.account.map (fun a => getField a "id"))
    (d.service.map (fun s => getField s "id"))
    (existingRatesLookup d) 0 csvData

/-! ## Concrete inputs used by witnesses and counterexamples -/

/-- A snapshot whose only content is one rate of account 1. -/
def dumpA : DumpData := ⟨[[("account_id", "1")]], [], [], []⟩

/-- A snapshot whose only content is one rate of account 2. -/
def dumpB : DumpData := ⟨[[("account_id", "2")]], [], [], []⟩

/-- A network oracle whose first fetch returns dumpA and whose later
fetches return dumpB. -/
def netAB : Nat → DumpData := fun n => if n = 0 then dumpA else dumpB

/-- A dump holding account 10, service 20 and an existing rate
(10, 20, 2023-01-01). -/
def dumpWithRate : DumpData :=
  ⟨[[("account_id", "10"), ("service_id", "20"), ("effective_date", "2023-01-01")]],
   [], [[("id", "10")]], [[("id", "20")]]⟩

/-- An already-cleaned CSV row whose key (10, 20, 20230101) collides with
the existing rate of dumpWithRate. -/
def dupCsvRow : List (String × String) :=
  [("account_id", "10"), ("service_id", "20"), ("rate", "1.5"),
   ("cogs", "0.9"), ("revision_start_date", "20230101")]

/-- A dump in which service 20 has a rate tier configured. -/
def dumpTiered : DumpData := ⟨[], [[("service_id", "20")]], [], []⟩

/-- A raw CSV row with all five fields present and parseable, referencing
service 20. -/
def rowService20 : CsvRow :=
  [("account_id", some "10"), ("service_id", some "20"), ("rate", some "1.5"),
   ("cogs", some "0.9"), ("revision_start_date", some "20230101")]

/-- A raw CSV row whose account_id field is the empty string (the
list-price shape). -/
def rowEmptyAccount : CsvRow :=
  [("account_id", some ""), ("service_id", some "20"), ("rate", some "1.5"),
   ("cogs", some "0.9"), ("revision_start_date", some "20230101")]

/-- A file whose header-reading step yields the required columns under
every candidate encoding, but which as a whole only decodes under cp1252
and iso-8859-1.  Such a file is real: an ASCII header line and enough
ASCII data rows to fill the first buffered chunk (about 8 KB, the part a
readline decodes eagerly), followed by a data row beyond that chunk
containing the byte 0xE9, which is invalid UTF-8 but a valid character in
both cp1252 and iso-8859-1.  Under utf-8 the header step sees only the
all-ASCII first chunk and succeeds; whole-file decoding fails. -/
def fileHeaderOnlyUtf8 : FileProfile :=
  ⟨fun _ => some requiredCols,
   fun e => match e with
            | .utf8 => false
            | .utf8sig => false
            | .cp1252 => true
            | .iso8859_1 => true,
   fun _ => []⟩

/-- A file whose header-reading step succeeds under every encoding but
never yields the columns rate, cogs and revision_start_date. -/
def fileMissingCols : FileProfile :=
  ⟨fun _ => some ["account_id", "service_id"], fun _ => true, fun _ => []⟩

/-- A network oracle that fails every request to /v1/dump/data and
answers every other endpoint. -/
def netOnlyV2 : DumpRequest → Except Unit String :=
  fun r => if r.endpoint = "/v1/dump/data" then .error () else .ok "resp"

/-- A network oracle that fails every request. -/
def netAllFail : DumpRequest → Except Unit String := fun _ => .error ()

/-- A parser oracle returning a fixed non-empty dump. -/
def parseConst : String → DumpData := fun _ => dumpA

/-! ## Shared lemmas -/

theorem passAux_partition (tiers : List String) (L : List RateKey) :
    ∀ (rows : List CsvRow) (n : Nat),
      (passAux tiers L n rows).processedRows =
        (passAux tiers L n rows).newRates.length + (passAux tiers L n rows).skippedCount +
        (passAux tiers L n rows).skippedTiers + (passAux tiers L n rows).errorRows := by
  intro rows
  induction rows with
  | nil => intro n; simp [passAux]
  | cons row rest ih =>
    intro n
    have h := ih (n + 1)
    cases hro : rowOutcome tiers L n row <;> simp [passAux, hro] <;> omega

theorem getField_created_account (nr : NewRate) :
    getField (createdDumpRecord nr) "account_id" = toString nr.account := by
  simp [getField, createdDumpRecord, List.find?]

theorem getField_created_service (nr : NewRate) :
    getField (createdDumpRecord nr) "service_id" = toString nr.service := by
  simp [getField, createdDumpRecord, List.find?]

theorem getField_created_date (nr : NewRate) :
    getField (createdDumpRecord nr) "effective_date" = formatDate nr.effectiveDate := by
  simp [getField, createdDumpRecord, List.find?]

theorem getField_created_tier (nr : NewRate) :
    getField (createdDumpRecord nr) "tier_aggregation_level" = "" := by
  simp [getField, createdDumpRecord, List.find?]

/-- Refreshing the snapshot with created single rates does not change the
tiered-service set: a created rate carries an empty
tier_aggregation_level. -/
theorem tiers_updated (d : DumpData) (created : List NewRate) :
    servicesWithRateTiers (updatedDump d created) = servicesWithRateTiers d := by
  simp only [servicesWithRateTiers, updatedDump, List.filterMap_append]
  have hnil : (created.map createdDumpRecord).filterMap (fun r =>
      let tierLevel := getField r "tier_aggregation_level"
      let sid := getField r "service_id"
      if tierLevel ≠ "" ∧ sid ≠ "" then some sid else none) = [] := by
    rw [List.filterMap_map]
    apply List.filterMap_eq_nil_iff.mpr
    intro nr _
    simp [Function.comp, getField_created_tier]
  simp [hnil]

theorem map_key_created (created : List NewRate) :
    (created.map createdDumpRecord).map
      (fun r => (getField r "account_id", getField r "service_id", getField r "effective_date")) =
    created.map newRateKey := by
  induction created with
  | nil => rfl
  | cons nr rest ih =>
    simp [ih, newRateKey, getField_created_account, getField_created_service,
      getField_created_date]

/-- Refreshing the snapshot with created rates extends the duplicate
lookup set by exactly the canonicalized keys of the created rates. -/
theorem lookup_updated (d : DumpData) (created : List NewRate) :
    existingRatesLookup (updatedDump d created) =
      existingRatesLookup d ++ created.map newRateKey := by
  simp only [existingRatesLookup, updatedDump, List.map_append]
  rw [map_key_created]

/-- Re-running the classification pass against a lookup set that contains
the old set plus the key of every rate created by the first run turns
every created row into a duplicate skip and leaves the other buckets
unchanged. -/
theorem passAux_rerun (tiers : List String) (L L2 : List RateKey)
    (hmono : ∀ x ∈ L, x ∈ L2) :
    ∀ (rows : List CsvRow) (n : Nat),
      (∀ nr ∈ (passAux tiers L n rows).newRates, newRateKey nr ∈ L2) →
      passAux tiers L2 n rows =
        ⟨[], (passAux tiers L n rows).skippedCount + (passAux tiers L n rows).newRates.length,
         (passAux tiers L n rows).skippedTiers, (passAux tiers L n rows).errorRows,
         (passAux tiers L n rows).processedRows⟩ := by
  intro rows
  induction rows with
  | nil => intro n _; simp [passAux]
  | cons row rest ih =>
    intro n hkeys
    cases hp : parseRow row with
    | none =>
      have h1 : rowOutcome tiers L n row = .rowError := by simp [rowOutcome, hp]
      have h2 : rowOutcome tiers L2 n row = .rowError := by simp [rowOutcome, hp]
      have htail := ih (n + 1) (by
        intro nr hnr
        apply hkeys
        simp only [passAux, h1]
        exact hnr)
      simp [passAux, h1, h2, htail]
    | some p =>
      by_cases htier : toString p.svc ∈ tiers
      · have h1 : rowOutcome tiers L n row = .tierSkip := by simp [rowOutcome, hp, htier]
        have h2 : rowOutcome tiers L2 n row = .tierSkip := by simp [rowOutcome, hp, htier]
        have htail := ih (n + 1) (by
          intro nr hnr
          apply hkeys
          simp only [passAux, h1]
          exact hnr)
        simp [passAux, h1, h2, htail]
      · by_cases hdup : (toString p.acc, toString p.svc, formatDate p.effDate) ∈ L
        · have h1 : rowOutcome tiers L n row = .dupSkip := by
            simp [rowOutcome, hp, htier, hdup]
          have h2 : rowOutcome tiers L2 n row = .dupSkip := by
            simp [rowOutcome, hp, htier, hmono _ hdup]
          have htail := ih (n + 1) (by
            intro nr hnr
            apply hkeys
            simp only [passAux, h1]
            exact hnr)
          simp [passAux, h1, h2, htail]
          omega
        · have h1 : rowOutcome tiers L n row =
              .created ⟨p.acc, p.svc, p.rateStr, p.cogsStr, p.effDate, n⟩ := by
            simp [rowOutcome, hp, htier, hdup]
          have hkey : (toString p.acc, toString p.svc, formatDate p.effDate) ∈ L2 := by
            have := hkeys ⟨p.acc, p.svc, p.rateStr, p.cogsStr, p.effDate, n⟩ (by
              simp only [passAux, h1]
              exact List.mem_cons_self _ _)
            simpa [newRateKey] using this
          have h2 : rowOutcome tiers L2 n row = .dupSkip := by
            simp [rowOutcome, hp, htier, hkey]
          have htail := ih (n + 1) (by
            intro nr hnr
            apply hkeys
            simp only [passAux, h1]
            exact List.mem_cons_of_mem _ hnr)
          simp [passAux, h1, h2, htail]
          omega

/-- Closed form of the submission loop on an arbitrary batch list: the
created count sums, per batch, the data-bearing results of a successful
batch call or the individually-successful rows of a failing one, and the
call trace records one batch call per batch followed, on failure only, by
exactly one individual call per row of that batch. -/
theorem submitBatchesAux_spec (env : SubmitEnv) :
    ∀ bs : List (List NewRate),
      (submitBatchesAux env bs).1 =
        (bs.map (fun b =>
          match env.batchResult b with
          | .ok rs => (rs.filter id).length
          | .error _ => (b.filter env.indivOk).length)).sum ∧
      (submitBatchesAux env bs).2 =
        (bs.map (fun b => SubmitCall.batchCall b ::
          (match env.batchResult b with
           | .ok _ => []
           | .error _ => b.map SubmitCall.indivCall))).flatten := by
  intro bs
  induction bs with
  | nil => simp [submitBatchesAux]
  | cons b rest ih =>
    cases hb : env.batchResult b <;> simp [submitBatchesAux, hb, ih.1, ih.2]

theorem chunked50_mem_le (n : Nat) : ∀ (l : List NewRate), l.length ≤ n →
    ∀ b ∈ chunked50 l, b.length ≤ 50 := by
  induction n with
  | zero =>
    intro l hl b hb
    have hnil : l = [] := List.length_eq_zero.mp (Nat.le_zero.mp hl)
    subst hnil
    rw [chunked50] at hb
    simp at hb
  | succ n ih =>
    intro l hl b hb
    rw [chunked50] at hb
    by_cases hnil : l = []
    · simp [hnil] at hb
    · rw [dif_neg hnil] at hb
      rcases List.mem_cons.mp hb with rfl | hb2
      · simp [List.length_take_le]
      · refine ih (l.drop 50) ?_ b hb2
        have hpos : 0 < l.length := List.length_pos.mpr hnil
        simp only [List.length_drop]
        omega

/-! ## Claim theorems -/

/-- C1: idempotence of the reconciliation pass.  For every CSV row list
and every dump snapshot, if the classification pass is run once and the
snapshot is then refreshed so that it contains one rate record per created
row (with the effective date in canonical YYYY-MM-DD form), re-running the
same pass over the same rows classifies 0 rows as valid: every first-run
valid row is now a duplicate skip, and the tier-skip, error and processed
counters are unchanged. -/
theorem claimC1_reconciliation_idempotent (d : DumpData) (rows : List CsvRow) :
    runClassification (updatedDump d (runClassification d rows).newRates) rows =
      ⟨[],
       (runClassification d rows).skippedCount + (runClassification d rows).newRates.length,
       (runClassification d rows).skippedTiers,
       (runClassification d rows).errorRows,
       (runClassification d rows).processedRows⟩ := by
  unfold runClassification
  rw [tiers_updated, lookup_updated]
  apply passAux_rerun
  · intro x hx
    exact List.mem_append_left _ hx
  · intro nr hnr
    exact List.mem_append_right _ (List.mem_map_of_mem _ hnr)

/-- C2 (amended): only rate_revision_exists memoizes the dump snapshot.
Its first call performs one network fetch and stores the snapshot;
a repeated call leaves the client state untouched and answers from the
stored snapshot; after clear_dump_cache the next call fetches again; and a
direct fetch_dump_data call always performs a network fetch, even while a
cached snapshot is present. -/
theorem claimC2_cache_memoization (net : Nat → DumpData) (a1 v1 a2 v2 a3 v3 : Int)
    (e1 e2 e3 : String) :
    ((rateRevisionExists net a1 v1 e1 initialClientState).2.requestCount = 1) ∧
    ((rateRevisionExists net a1 v1 e1 initialClientState).2.cachedDumpData = some (net 0)) ∧
    ((rateRevisionExists net a2 v2 e2 (rateRevisionExists net a1 v1 e1 initialClientState).2).2 =
      (rateRevisionExists net a1 v1 e1 initialClientState).2) ∧
    ((rateRevisionExists net a2 v2 e2 (rateRevisionExists net a1 v1 e1 initialClientState).2).1 =
      rateExistsIn (net 0) a2 v2 (formatDate e2)) ∧
    ((rateRevisionExists net a3 v3 e3
        (clearDumpCache (rateRevisionExists net a1 v1 e1 initialClientState).2)).2.requestCount = 2) ∧
    ((fetchDumpDataStateful net (rateRevisionExists net a1 v1 e1 initialClientState).2).2.requestCount = 2) := by
  simp [rateRevisionExists, fetchDumpDataStateful, clearDumpCache, initialClientState]

/-- C2 counterexample: two consecutive fetch_dump_data calls with no
invalidation in between issue two network requests and can return two
different snapshots, and neither call sets the memo slot — refuting the
claim that every repeated snapshot fetch reuses the in-memory snapshot
without re-issuing the request. -/
theorem claimC2_fetch_always_refetches :
    (fetchDumpDataStateful netAB initialClientState).1 ≠
      (fetchDumpDataStateful netAB (fetchDumpDataStateful netAB initialClientState).2).1 ∧
    (fetchDumpDataStateful netAB (fetchDumpDataStateful netAB initialClientState).2).2.requestCount = 2 ∧
    (fetchDumpDataStateful netAB initialClientState).2.cachedDumpData = none := by
  decide

/-- C3: at the failing input — a row whose account and service exist in
the system and whose (account, service, canonical date) key equals an
existing rate — validate_csv_against_system records row 2 both in
duplicate_rates and in valid_rows, giving one row two classifications. -/
theorem claimC3_validate_double_classification :
    (validateCsvAgainstSystem dumpWithRate [dupCsvRow]).duplicateRates =
      [(2, "10", "20", "20230101")] ∧
    (validateCsvAgainstSystem dumpWithRate [dupCsvRow]).validRows = [2] := by
  decide

/-- C4: batch fallback completeness.  For every outcome environment and
row list, the rows are sliced into batches of at most 50; the reported
created count is the sum, over the batches in order, of the data-bearing
results of a successful batch call, or of the count of individually
successful rows of a batch whose batch call raised; and the call trace
shows one batch call per batch — so no batch is abandoned — followed, for
a failing batch only, by exactly one individual call per row of that
batch. -/
theorem claimC4_batch_fallback_accounting (env : SubmitEnv) (rows : List NewRate) :
    (submitBatches env rows).1 =
      ((chunked50 rows).map (fun b =>
        match env.batchResult b with
        | .ok rs => (rs.filter id).length
        | .error _ => (b.filter env.indivOk).length)).sum ∧
    (submitBatches env rows).2 =
      ((chunked50 rows).map (fun b => SubmitCall.batchCall b ::
        (match env.batchResult b with
         | .ok _ => []
         | .error _ => b.map SubmitCall.indivCall))).flatten ∧
    ∀ b ∈ chunked50 rows, b.length ≤ 50 :=
  ⟨(submitBatchesAux_spec env (chunked50 rows)).1,
   (submitBatchesAux_spec env (chunked50 rows)).2,
   fun b hb => chunked50_mem_le rows.length rows le_rfl b hb⟩

/-- C5 (amended): when no tried encoding yields a header containing all
five required columns, ingestion fails as a whole — no per-row processing
occurs — with the fixed generic failure message, which does not name the
missing columns. -/
theorem claimC5_ingestion_failure_generic (f : FileProfile) (d : DumpData)
    (h : ∀ e ∈ encodingsToTry, headerOk f e = false) :
    ingestRows f d = .error ingestFailureMessage := by
  have hsel : selectEncoding f = none := by
    apply List.find?_eq_none.mpr
    intro e he
    simp [h e he]
  simp [ingestRows, hsel]

theorem claimC5_ingestion_failure_generic_witness :
    ingestRows fileMissingCols emptyDump = Except.error ingestFailureMessage :=
  claimC5_ingestion_failure_generic fileMissingCols emptyDump (by decide)

/-- C5 counterexample: the file whose header never carries rate, cogs or
revision_start_date is rejected as a whole, but the reported message is
the fixed generic string, which mentions none of the three missing column
names — refuting the claim that the failure names the missing columns. -/
theorem claimC5_failure_names_no_columns :
    selectEncoding fileMissingCols = none ∧
    ingestRows fileMissingCols emptyDump = Except.error ingestFailureMessage ∧
    hasSubChars "rate".data ingestFailureMessage.data = false ∧
    hasSubChars "cogs".data ingestFailureMessage.data = false ∧
    hasSubChars "revision_start_date".data ingestFailureMessage.data = false :=
  ⟨by decide, rfl, by decide, by decide, by decide⟩

/-- C6 (amended): encoding selection is a first-match scan of utf-8,
utf-8-sig, cp1252, iso-8859-1 in that order, where a candidate matches
exactly when the header-reading step succeeds — the first buffered chunk
(about 8 KB) decodes and the header, after trimming and BOM-stripping the
field names, contains all five required columns; decodability of the file
beyond the first buffered chunk plays no part in the selection. -/
theorem claimC6_encoding_selection_first_match (f : FileProfile) :
    selectEncoding f =
      (if headerOk f .utf8 then some .utf8
       else if headerOk f .utf8sig then some .utf8sig
       else if headerOk f .cp1252 then some .cp1252
       else if headerOk f .iso8859_1 then some .iso8859_1
       else none) := by
  cases h1 : headerOk f .utf8 <;> cases h2 : headerOk f .utf8sig <;>
    cases h3 : headerOk f .cp1252 <;> cases h4 : headerOk f .iso8859_1 <;>
    simp [selectEncoding, encodingsToTry, List.find?, h1, h2, h3, h4]

/-- C6 counterexample: for the file whose first buffered chunk is ASCII
under every encoding but which contains an invalid-under-UTF-8 byte
beyond that chunk, the source selects utf-8 even though whole-file
decoding fails under it, while the selection rule stated by the spec
would pick cp1252 — refuting the claim that the selected encoding is the
first under which decoding succeeds for the whole file. -/
theorem claimC6_whole_file_decode_not_required :
    selectEncoding fileHeaderOnlyUtf8 = some Encoding.utf8 ∧
    fileHeaderOnlyUtf8.wholeFileDecodes Encoding.utf8 = false ∧
    selectEncodingSpecStated fileHeaderOnlyUtf8 = some Encoding.cp1252 ∧
    Encoding.utf8 ≠ Encoding.cp1252 := by
  decide

/-- C7: rate-tier exclusion.  Every row that parses successfully and whose
service id belongs to the tiered-service set of the snapshot (service ids
of ratetier records, plus service ids of rate records with a non-empty
tier_aggregation_level) is classified as a tier skip, whatever the
duplicate lookup set contains — in particular also when no duplicate
exists. -/
theorem claimC7_rate_tier_exclusion (d : DumpData) (L : List RateKey) (n : Nat)
    (row : CsvRow) (p : ParsedRow)
    (hp : parseRow row = some p) (ht : toString p.svc ∈ servicesWithRateTiers d) :
    rowOutcome (servicesWithRateTiers d) L n row = .tierSkip := by
  simp [rowOutcome, hp, ht]

theorem claimC7_rate_tier_exclusion_witness :
    rowOutcome (servicesWithRateTiers dumpTiered) [] 2 rowService20 = ImportOutcome.tierSkip :=
  claimC7_rate_tier_exclusion dumpTiered [] 2 rowService20
    ⟨10, 20, "1.5", "0.9", "20230101"⟩ (by decide) (by decide)

/-- C8 (amended): when the primary dump request fails, fetch_dump_data
retries a fixed list of four alternatives in order — three against the
same /v1/dump/data endpoint with narrower model lists and a final one
against the different endpoint /v2/dump — and when the primary and all
four alternatives fail it returns the empty snapshot, so the caller always
receives a snapshot. -/
theorem claimC8_dump_fallback (net : DumpRequest → Except Unit String)
    (parse : String → DumpData)
    (hp : net primaryDumpRequest = .error ())
    (ha : ∀ alt ∈ dumpAlternatives, net alt = .error ()) :
    fetchDumpData net parse = emptyDump ∧
    dumpAlternatives.map DumpRequest.endpoint =
      ["/v1/dump/data", "/v1/dump/data", "/v1/dump/data", "/v2/dump"] := by
  refine ⟨?_, by decide⟩
  have hfs : dumpAlternatives.findSome? (fun alt =>
      match net alt with
      | .ok text => some (parse text)
      | .error _ => none) = none := by
    apply List.findSome?_eq_none_iff.mpr
    intro alt halt
    simp [ha alt halt]
  simp [fetchDumpData, hp, hfs]

theorem claimC8_dump_fallback_witness :
    fetchDumpData netAllFail parseConst = emptyDump ∧
    dumpAlternatives.map DumpRequest.endpoint =
      ["/v1/dump/data", "/v1/dump/data", "/v1/dump/data", "/v2/dump"] :=
  claimC8_dump_fallback netAllFail parseConst rfl (fun _ _ => rfl)

/-- C8 counterexample: under a network on which the primary request and
every request to /v1/dump/data fail, all the same-endpoint alternatives
fail, yet fetch_dump_data returns a non-empty snapshot obtained from the
fourth alternative, whose endpoint is /v2/dump — refuting the claim that
the retries go against the same endpoint (and that exhausting them yields
the empty snapshot). -/
theorem claimC8_fourth_alternative_other_endpoint :
    netOnlyV2 primaryDumpRequest = Except.error () ∧
    netOnlyV2 (dumpAlternatives.getD 0 primaryDumpRequest) = Except.error () ∧
    netOnlyV2 (dumpAlternatives.getD 1 primaryDumpRequest) = Except.error () ∧
    netOnlyV2 (dumpAlternatives.getD 2 primaryDumpRequest) = Except.error () ∧
    (dumpAlternatives.getD 3 primaryDumpRequest).endpoint = "/v2/dump" ∧
    fetchDumpData netOnlyV2 parseConst = dumpA ∧
    dumpA ≠ emptyDump :=
  ⟨rfl, rfl, rfl, rfl, by decide, rfl, by decide⟩

/-- C9: a CSV row whose account_id field is absent, or empty after
stripping, fails the integer parse of the import pass, is counted as an
error row, and contributes nothing to new_rates, so list-price rates
cannot be created through the CSV import path. -/
theorem claimC9_empty_account_never_submitted (tiers : List String) (L : List RateKey)
    (n : Nat) (row : CsvRow)
    (h : cleanRow row = none ∨
      ∃ cr, cleanRow row = some cr ∧
        (getVal cr "account_id" = none ∨ getVal cr "account_id" = some "")) :
    parseRow row = none ∧
    rowOutcome tiers L n row = .rowError ∧
    ∀ rest, (passAux tiers L n (row :: rest)).newRates = (passAux tiers L (n + 1) rest).newRates ∧
      (passAux tiers L n (row :: rest)).errorRows = (passAux tiers L (n + 1) rest).errorRows + 1 := by
  have hp : parseRow row = none := by
    rcases h with h | ⟨cr, hcr, hacc | hacc⟩
    · simp [parseRow, h]
    · simp [parseRow, hcr, hacc]
    · have hz : parsePyInt "" = none := by decide
      simp [parseRow, hcr, hacc, hz]
  refine ⟨hp, by simp [rowOutcome, hp], ?_⟩
  intro rest
  constructor <;> simp [passAux, rowOutcome, hp]

theorem claimC9_empty_account_witness :
    parseRow rowEmptyAccount = none ∧
    rowOutcome [] [] 2 rowEmptyAccount = ImportOutcome.rowError ∧
    (passAux [] [] 2 [rowEmptyAccount]).newRates = (passAux [] [] 3 []).newRates ∧
    (passAux [] [] 2 [rowEmptyAccount]).errorRows = (passAux [] [] 3 []).errorRows + 1 := by
  have h := claimC9_empty_account_never_submitted [] [] 2 rowEmptyAccount
    (Or.inr ⟨[("account_id", ""), ("service_id", "20"), ("rate", "1.5"),
      ("cogs", "0.9"), ("revision_start_date", "20230101")], by decide, Or.inr (by decide)⟩)
  exact ⟨h.1, h.2.1, (h.2.2 []).1, (h.2.2 []).2⟩

/-- C10: partition invariant of the classification loop.  For every dump
snapshot and CSV row list, every processed data row lands in exactly one
outcome bucket: the processed-row counter equals the number of new rates
plus the duplicate skips plus the tier skips plus the error rows. -/
theorem claimC10_partition_invariant (d : DumpData) (rows : List CsvRow) :
    (runClassification d rows).processedRows =
      (runClassification d rows).newRates.length + (runClassification d rows).skippedCount +
      (runClassification d rows).skippedTiers + (runClassification d rows).errorRows :=
  passAux_partition _ _ rows 2
